import Mathlib

/-
Verification development for the vitals / eye-tracking service.

Shallow embedding of the modules vitals_service, heart_rate_monitor,
eye_tracker, eye_tracker_simple and custom_metrics_processor.

Modelling conventions:
- Python floats are modelled as rationals (exact arithmetic).
- Python deques with maxlen are modelled as lists with a push that drops
  the oldest entries beyond the capacity.
- numpy std-dev threshold tests are stated on the exact variance against
  the squared threshold: for nonnegative c, std l < c iff variance l < c^2.
- Python exceptions are modelled with Except String.
- int() truncation toward zero is modelled by pyTrunc.
-/

/-- Push onto a bounded deque (collections.deque with maxlen = cap):
append on the right, dropping the oldest entries on the left on overflow. -/
def dequePush {α : Type} (cap : Nat) (l : List α) (x : α) : List α :=
  let l' := l ++ [x]
  if cap < l'.length then l'.drop (l'.length - cap) else l'

/-- numpy mean of a list of rationals (sum divided by length). -/
def listMean (l : List ℚ) : ℚ := l.sum / l.length

/-- Exact population variance, the square of numpy std
(numpy default ddof = 0). -/
def listVariance (l : List ℚ) : ℚ :=
  ((l.map (fun x => (x - listMean l) * (x - listMean l))).sum) / l.length

/-- Python int() on a float: truncation toward zero. -/
def pyTrunc (q : ℚ) : Int := if q < 0 then -⌊-q⌋ else ⌊q⌋

/-- numpy median: sort, take the middle element (odd length) or the mean of
the two middle elements (even length).  Only used on nonempty lists. -/
def npMedian (l : List ℚ) : ℚ :=
  let s := List.insertionSort (· ≤ ·) l
  if s.length % 2 = 1 then s.getD (s.length / 2) 0
  else (s.getD (s.length / 2 - 1) 0 + s.getD (s.length / 2) 0) / 2

/-- Gaze classification produced by the eye trackers. -/
inductive Gaze
  | screen
  | away
  | unknown
deriving DecidableEq, Repr

namespace VitalsService

/-- Module-level tuning constants of vitals_service. -/
def FOCUS_HEART_RATE_MIN : ℚ := 60

def FOCUS_HEART_RATE_MAX : ℚ := 100

def FOCUS_BREATHING_STABILITY_THRESHOLD : ℚ := 2

def THINKING_BREATHING_SLOW_THRESHOLD : ℚ := 12

def THINKING_HEART_RATE_INCREASE : ℚ := 10

/-- One Metric record as built by VitalsSession.add_metrics
(timestamp omitted: it is wall-clock bookkeeping only). -/
structure Metric where
  heart_rate : Option ℚ
  breathing_rate : Option ℚ
  focus_score : Int
  engagement_score : Int
  thinking_intensity : Int
  gaze_direction : Gaze
  blink_rate : Option ℚ
  eye_movement_stability : ℚ
  focus_duration : ℚ
deriving DecidableEq, Repr

/-- Mutable state of a VitalsSession (session_id, api_key, start_time and
the embedded custom processor are omitted: they do not affect the metric
computations). -/
structure SessionState where
  heart_rates : List ℚ
  breathing_rates : List ℚ
  baseline_heart_rate : Option ℚ
  baseline_breathing_rate : Option ℚ
  frame_count : Nat
  gaze_directions : List Gaze
  blink_rates : List ℚ
  eye_movement_stabilities : List ℚ
  focus_durations : List ℚ
  metrics_history : List Metric
deriving DecidableEq, Repr

/-- Fresh VitalsSession state as built by the constructor. -/
def initSession : SessionState :=
  { heart_rates := []
    breathing_rates := []
    baseline_heart_rate := none
    baseline_breathing_rate := none
    frame_count := 0
    gaze_directions := []
    blink_rates := []
    eye_movement_stabilities := []
    focus_durations := []
    metrics_history := [] }

/-- The source calls math.abs, but the Python math module has no
attribute abs, so this call raises AttributeError unconditionally. -/
def mathAbs (_x : ℚ) : Except String ℚ :=
  .error "AttributeError: module math has no attribute abs"

/-- The part of VitalsSession._calculate_focus_score after the math.abs
call (argument a stands for the value math.abs would have returned); in the
source this code is unreachable because math.abs raises. -/
def focus_score_rest (st : SessionState) (a : ℚ) (gaze_direction : Gaze)
    (eye_movement_stability focus_duration : ℚ) : Int :=
  let base1 : ℚ := 100 * a
  let base2 : ℚ := 100 - base1
  let base3 : ℚ := min 100 base2
  let base4 : ℚ := max 0 base3
  -- breathing stability: std < 2 resp. < 4, stated as variance < 4 resp. < 16
  let base5 : ℚ :=
    if 3 ≤ st.breathing_rates.length then
      if listVariance st.breathing_rates < 4 then base4 * (8/10)
      else if listVariance st.breathing_rates < 16 then base4 * (9/10)
      else base4
    else base4 * (95/100)
  -- heart-rate stability: std < 5 resp. < 10, stated as variance < 25 resp. < 100
  let base6 : ℚ :=
    if 3 ≤ st.heart_rates.length then
      if listVariance st.heart_rates < 25 then base5 + 10
      else if listVariance st.heart_rates < 100 then base5 + 5
      else base5
    else base5
  let base7 : ℚ := min 100 base6
  let gaze_factor : ℚ :=
    match gaze_direction with
    | .screen => 1
    | .away => 1/2
    | .unknown => 8/10
  let stability_factor : ℚ :=
    if 8/10 < eye_movement_stability then 1
    else if 6/10 < eye_movement_stability then 95/100
    else if 4/10 < eye_movement_stability then 85/100
    else if 2/10 < eye_movement_stability then 7/10
    else if 0 < eye_movement_stability then 6/10
    else 1/2
  let duration_factor : ℚ :=
    if 5 < focus_duration then 1
    else if 2 < focus_duration then 95/100
    else if 1/2 < focus_duration then 9/10
    else 8/10
  min 100 (max 0 (pyTrunc (base7 * gaze_factor * stability_factor * duration_factor)))

/-- VitalsSession._calculate_focus_score.  Returns 0 when either vital is
missing; otherwise the source immediately evaluates
math.abs((FOCUS_HEART_RATE_MAX - heart_rate) - (heart_rate - FOCUS_HEART_RATE_MIN)),
which raises AttributeError. -/
def calculate_focus_score (st : SessionState) (heart_rate breathing_rate : Option ℚ)
    (gaze_direction : Gaze) (eye_movement_stability focus_duration : ℚ) :
    Except String Int :=
  match heart_rate, breathing_rate with
  | some hr, some _ =>
    (mathAbs ((FOCUS_HEART_RATE_MAX - hr) - (hr - FOCUS_HEART_RATE_MIN))).map
      (fun a => focus_score_rest st a gaze_direction eye_movement_stability focus_duration)
  | _, _ => .ok 0

/-- VitalsSession._calculate_engagement_score. -/
def calculate_engagement_score (_st : SessionState) (heart_rate breathing_rate : Option ℚ)
    (gaze_direction : Gaze) (blink_rate : Option ℚ) : Int :=
  match heart_rate, breathing_rate with
  | some hr, some br =>
    let base1 : ℚ := 50
    let base2 : ℚ := base1 +
      (if 70 ≤ hr ∧ hr ≤ 90 then 30
       else if (60 ≤ hr ∧ hr < 70) ∨ (90 < hr ∧ hr ≤ 100) then 20
       else 10)
    let base3 : ℚ := base2 +
      (if 12 ≤ br ∧ br ≤ 18 then 20
       else if (10 ≤ br ∧ br < 12) ∨ (18 < br ∧ br ≤ 20) then 15
       else 10)
    let base4 : ℚ := min 100 base3
    let gaze_factor : ℚ :=
      match gaze_direction with
      | .screen => 1
      | .away => 6/10
      | .unknown => 85/100
    let blink_factor : ℚ :=
      match blink_rate with
      | some b =>
        if 12 ≤ b ∧ b ≤ 25 then 1
        else if (8 ≤ b ∧ b < 12) ∨ (25 < b ∧ b ≤ 30) then 9/10
        else if b < 8 then 7/10
        else 8/10
      | none => 9/10
    min 100 (max 0 (pyTrunc (base4 * gaze_factor * blink_factor)))
  | _, _ => 0

/-- VitalsSession._calculate_thinking_intensity. -/
def calculate_thinking_intensity (st : SessionState) (heart_rate breathing_rate : Option ℚ)
    (gaze_direction : Gaze) (eye_movement_stability : ℚ) : Int :=
  match heart_rate, breathing_rate with
  | some hr, some br =>
    let base1 : ℚ := 50
    let base2 : ℚ := base1 +
      (if br < THINKING_BREATHING_SLOW_THRESHOLD then 30
       else if br < THINKING_BREATHING_SLOW_THRESHOLD + 2 then 20
       else 10)
    let base3 : ℚ := base2 +
      (match st.baseline_heart_rate with
       | some b0 =>
         let heart_increase := hr - b0
         if 5 ≤ heart_increase ∧ heart_increase ≤ THINKING_HEART_RATE_INCREASE then 20
         else if THINKING_HEART_RATE_INCREASE < heart_increase then 10
         else 0
       | none => 10)
    -- vital stability: std < 3 and < 1.5 resp. < 5 and < 2, stated as
    -- variance < 9 and < 9/4 resp. variance < 25 and < 4
    let base4 : ℚ :=
      if 5 ≤ st.heart_rates.length ∧ 5 ≤ st.breathing_rates.length then
        if listVariance st.heart_rates < 9 ∧ listVariance st.breathing_rates < 9/4 then
          base3 + 20
        else if listVariance st.heart_rates < 25 ∧ listVariance st.breathing_rates < 4 then
          base3 + 10
        else base3
      else base3
    let base5 : ℚ := min 100 base4
    let gaze_stability_factor : ℚ :=
      if gaze_direction = .screen ∧ 7/10 < eye_movement_stability then 1
      else if gaze_direction = .screen ∧ 5/10 < eye_movement_stability then 9/10
      else if gaze_direction = .screen then 3/4
      else if gaze_direction = .away then 1/2
      else 7/10
    let stability_factor : ℚ :=
      if 8/10 < eye_movement_stability then 1
      else if 6/10 < eye_movement_stability then 9/10
      else if 4/10 < eye_movement_stability then 3/4
      else if 2/10 < eye_movement_stability then 6/10
      else if 0 < eye_movement_stability then 1/2
      else 4/10
    min 100 (max 0 (pyTrunc (base5 * gaze_stability_factor * stability_factor)))
  | _, _ => 0

/-- The vitals-history part of add_metrics: append a present heart-rate
reading (capacity 30) and set the baseline once, when at least 5 readings
exist, to the mean of the first 5 entries of the deque. -/
def push_heart_rate (st : SessionState) (heart_rate : Option ℚ) : SessionState :=
  match heart_rate with
  | some hr =>
    let hrs := dequePush 30 st.heart_rates hr
    let b :=
      if st.baseline_heart_rate = none ∧ 5 ≤ hrs.length then
        some (listMean (hrs.take 5))
      else st.baseline_heart_rate
    { st with heart_rates := hrs, baseline_heart_rate := b }
  | none => st

/-- Same for breathing-rate readings. -/
def push_breathing_rate (st : SessionState) (breathing_rate : Option ℚ) : SessionState :=
  match breathing_rate with
  | some br =>
    let brs := dequePush 30 st.breathing_rates br
    let b :=
      if st.baseline_breathing_rate = none ∧ 5 ≤ brs.length then
        some (listMean (brs.take 5))
      else st.baseline_breathing_rate
    { st with breathing_rates := brs, baseline_breathing_rate := b }
  | none => st

/-- The eye-tracking-history part of add_metrics. -/
def push_eye_metrics (st : SessionState) (gaze_direction : Gaze) (blink_rate : Option ℚ)
    (eye_movement_stability focus_duration : ℚ) : SessionState :=
  { st with
    gaze_directions :=
      if gaze_direction ≠ .unknown then dequePush 100 st.gaze_directions gaze_direction
      else st.gaze_directions
    blink_rates :=
      match blink_rate with
      | some b => dequePush 100 st.blink_rates b
      | none => st.blink_rates
    eye_movement_stabilities :=
      if 0 < eye_movement_stability then
        dequePush 100 st.eye_movement_stabilities eye_movement_stability
      else st.eye_movement_stabilities
    focus_durations :=
      if 0 < focus_duration then dequePush 100 st.focus_durations focus_duration
      else st.focus_durations }

/-- VitalsSession.add_metrics.  The vitals histories, baselines and
eye-tracking histories are updated first; then the three derived scores are
computed.  When _calculate_focus_score raises (both vitals present), the
exception propagates: no Metric is appended and frame_count is not
incremented, but the earlier history updates persist. -/
def add_metrics (st : SessionState) (heart_rate breathing_rate : Option ℚ)
    (gaze_direction : Gaze) (blink_rate : Option ℚ)
    (eye_movement_stability focus_duration : ℚ) :
    SessionState × Except String Metric :=
  let st3 := push_eye_metrics (push_breathing_rate (push_heart_rate st heart_rate) breathing_rate)
    gaze_direction blink_rate eye_movement_stability focus_duration
  match calculate_focus_score st3 heart_rate breathing_rate gaze_direction
      eye_movement_stability focus_duration with
  | .error e => (st3, .error e)
  | .ok fs =>
    let es := calculate_engagement_score st3 heart_rate breathing_rate gaze_direction blink_rate
    let ti := calculate_thinking_intensity st3 heart_rate breathing_rate gaze_direction
      eye_movement_stability
    let m : Metric :=
      { heart_rate := heart_rate
        breathing_rate := breathing_rate
        focus_score := fs
        engagement_score := es
        thinking_intensity := ti
        gaze_direction := gaze_direction
        blink_rate := blink_rate
        eye_movement_stability := eye_movement_stability
        focus_duration := focus_duration }
    ({ st3 with
        metrics_history := dequePush 100 st3.metrics_history m
        frame_count := st3.frame_count + 1 },
     .ok m)

/-- One add_metrics call bundled as a record. -/
structure AddInput where
  heart_rate : Option ℚ
  breathing_rate : Option ℚ
  gaze_direction : Gaze
  blink_rate : Option ℚ
  eye_movement_stability : ℚ
  focus_duration : ℚ
deriving Repr

/-- Run a sequence of add_metrics calls, threading the session state
(exceptions propagate to the caller of each call but leave the partially
updated state in place, as Python object mutation does). -/
def run_add_metrics (st : SessionState) (calls : List AddInput) : SessionState :=
  calls.foldl
    (fun s c =>
      (add_metrics s c.heart_rate c.breathing_rate c.gaze_direction c.blink_rate
        c.eye_movement_stability c.focus_duration).1)
    st

/-- Aggregate returned by VitalsSession.get_aggregated_metrics.  The std-dev
fields are represented by their exact squares (variances). -/
structure AggregatedMetrics where
  average_heart_rate : Option ℚ
  average_breathing_rate : Option ℚ
  average_focus_score : ℚ
  average_engagement_score : ℚ
  average_thinking_intensity : ℚ
  heart_rate_variance : Option ℚ
  breathing_rate_variance : Option ℚ
  total_frames : Nat
deriving DecidableEq, Repr

/-- VitalsSession.get_aggregated_metrics. -/
def get_aggregated_metrics (st : SessionState) : Option AggregatedMetrics :=
  if st.metrics_history.length = 0 then none
  else
    let heart_rates := st.metrics_history.filterMap (·.heart_rate)
    let breathing_rates := st.metrics_history.filterMap (·.breathing_rate)
    let focus_scores := st.metrics_history.map (fun m => (m.focus_score : ℚ))
    let engagement_scores := st.metrics_history.map (fun m => (m.engagement_score : ℚ))
    let thinking_intensities := st.metrics_history.map (fun m => (m.thinking_intensity : ℚ))
    some
      { average_heart_rate := if heart_rates.isEmpty then none else some (listMean heart_rates)
        average_breathing_rate :=
          if breathing_rates.isEmpty then none else some (listMean breathing_rates)
        average_focus_score := if focus_scores.isEmpty then 0 else listMean focus_scores
        average_engagement_score :=
          if engagement_scores.isEmpty then 0 else listMean engagement_scores
        average_thinking_intensity :=
          if thinking_intensities.isEmpty then 0 else listMean thinking_intensities
        heart_rate_variance :=
          if 1 < heart_rates.length then some (listVariance heart_rates) else none
        breathing_rate_variance :=
          if 1 < breathing_rates.length then some (listVariance breathing_rates) else none
        total_frames := st.frame_count }

/-- Response of the start_session route (HTTP details elided). -/
inductive StartResponse
  | ok (session_id message : String)
  | errorMissingSessionId
  | errorMissingApiKey
deriving DecidableEq, Repr

/-- Body of a start_session request. -/
structure StartRequest where
  session_id : Option String
  api_key : Option String
deriving Repr

/-- The start_session route handler: validates session_id and api_key
(Python truthiness: absent or empty strings are falsy; the environment key
PRESAGE_API_KEY is the fallback), then either answers success for an
existing id without touching the registry, or inserts a fresh session. -/
def start_session (sessions : List (String × SessionState)) (req : StartRequest)
    (envApiKey : String) : List (String × SessionState) × StartResponse :=
  match req.session_id with
  | none => (sessions, .errorMissingSessionId)
  | some sid =>
    if sid = "" then (sessions, .errorMissingSessionId)
    else
      let api_key :=
        match req.api_key with
        | some k => if k ≠ "" then k else envApiKey
        | none => envApiKey
      if api_key = "" then (sessions, .errorMissingApiKey)
      else if (sessions.lookup sid).isSome then
        (sessions, .ok sid "Session already exists")
      else
        (sessions ++ [(sid, initSession)], .ok sid "Session started")

/-- Invariant tying a session state to the heart-rate readings consumed so
far: before the 5th non-none reading the deque mirrors the readings and no
baseline exists; from the 5th on, the baseline is the mean of the first 5. -/
def HeartInv (st : SessionState) (hrs : List ℚ) : Prop :=
  (hrs.length < 5 → st.baseline_heart_rate = none ∧ st.heart_rates = hrs) ∧
  (5 ≤ hrs.length → st.baseline_heart_rate = some (listMean (hrs.take 5)))

/-- The same invariant for the breathing-rate channel. -/
def BreathInv (st : SessionState) (brs : List ℚ) : Prop :=
  (brs.length < 5 → st.baseline_breathing_rate = none ∧ st.breathing_rates = brs) ∧
  (5 ≤ brs.length → st.baseline_breathing_rate = some (listMean (brs.take 5)))

end VitalsService

namespace EyeTrackerM

/-- Focus-time bookkeeping state shared by both eye-tracker variants
(their process_frame methods contain the identical update block). -/
structure TrackerState where
  focus_start_time : Option ℚ
  total_focus_time : ℚ
  last_update_time : ℚ
deriving DecidableEq, Repr

/-- One processed frame, as far as the focus-time update is concerned:
whether a face was detected, the gaze classification computed for the frame,
the wall-clock time at the update (time.time()) and the frame timestamp. -/
structure TrackerFrame where
  face_detected : Bool
  gaze : Gaze
  current_time : ℚ
  timestamp : ℚ
deriving Repr

/-- The focus-time update block of EyeTracker.process_frame: compute the
wall-clock delta since the last update; on a screen frame either start a
run (first frame: nothing added) or add the delta to total_focus_time; on a
non-screen frame clear only the run marker, leaving total_focus_time as is. -/
def update_focus_time (st : TrackerState) (f : TrackerFrame) : TrackerState :=
  let time_delta := f.current_time - st.last_update_time
  let st1 := { st with last_update_time := f.current_time }
  if f.gaze = .screen then
    match st.focus_start_time with
    | none => { st1 with focus_start_time := some f.timestamp }
    | some _ => { st1 with total_focus_time := st.total_focus_time + time_delta }
  else
    { st1 with focus_start_time := none }

/-- EyeTracker.process_frame restricted to the focus-duration output: when
no face is detected the method returns early with the unchanged
total_focus_time (the update block is not reached); otherwise it runs the
update block and reports the updated total_focus_time. -/
def process_frame (st : TrackerState) (f : TrackerFrame) : TrackerState × ℚ :=
  if f.face_detected = false then (st, st.total_focus_time)
  else
    let st' := update_focus_time st f
    (st', st'.total_focus_time)

/-- Run a frame sequence through the tracker, collecting the reported
focus_duration of every frame. -/
def run (st : TrackerState) (fs : List TrackerFrame) : TrackerState × List ℚ :=
  match fs with
  | [] => (st, [])
  | f :: rest =>
    let (st', d) := process_frame st f
    let (stFin, ds) := run st' rest
    (stFin, d :: ds)

end EyeTrackerM

namespace HeartRateMonitorM

/-- State of a HeartRateMonitor: the bounded raw-signal buffer and the
rolling histories of validated heart-rate / breathing-rate readings.
The ROI bookkeeping is abstracted into the per-frame input below, and
timestamps are dropped (the source buffers but never uses them). -/
structure HRMState where
  signal_buffer : List ℚ
  hr_history : List ℚ
  br_history : List ℚ
  last_hr : Option ℚ
  last_br : Option ℚ
deriving DecidableEq, Repr

/-- Fresh monitor state. -/
def initHRM : HRMState :=
  { signal_buffer := [], hr_history := [], br_history := [],
    last_hr := none, last_br := none }

/-- Per-frame input.  signal_value is the mean green-channel value over the
forehead ROI, none when face detection / ROI extraction fails.  The spectral
analysis (detrend, Butterworth bandpass, FFT, in-band argmax) is a
floating-point pipeline abstracted as an oracle: hr_peak_bpm / br_peak_bpm
is the BPM of the maximum-magnitude in-band frequency bin, none when the
pipeline fails or the band holds no bin.  The range validation performed by
the source on these candidates is embedded exactly. -/
structure HRMFrame where
  signal_value : Option ℚ
  hr_peak_bpm : Option ℚ
  br_peak_bpm : Option ℚ
deriving Repr

/-- Output record of HeartRateMonitor.process_frame (signal_quality and
buffer_fill omitted: not needed by the claims about this module). -/
structure HRMOut where
  heart_rate : Option ℚ
  breathing_rate : Option ℚ
deriving DecidableEq, Repr

/-- HeartRateMonitor._calculate_heart_rate: requires at least 30 buffered
samples (a fixed count, one second only at 30 fps); returns none when the
bandpass edges reach Nyquist (high edge 4.0 / (fps / 2) is at least 1 iff
fps is at most 8; fps 0 divides by zero, also caught as none); then
validates the candidate BPM against the range 40 to 200. -/
def calculate_heart_rate (fps : Nat) (n : Nat) (peak_bpm : Option ℚ) : Option ℚ :=
  if n < 30 then none
  else if fps ≤ 8 then none
  else
    match peak_bpm with
    | none => none
    | some bpm => if 40 ≤ bpm ∧ bpm ≤ 200 then some bpm else none

/-- HeartRateMonitor._calculate_breathing_rate: requires at least 60
buffered samples; band edge 0.5 / (fps / 2) is at least 1 iff fps is at
most 1; validates against the range 6 to 30. -/
def calculate_breathing_rate (fps : Nat) (n : Nat) (peak_bpm : Option ℚ) : Option ℚ :=
  if n < 60 then none
  else if fps ≤ 1 then none
  else
    match peak_bpm with
    | none => none
    | some bpm => if 6 ≤ bpm ∧ bpm ≤ 30 then some bpm else none

/-- HeartRateMonitor.process_frame.  Signal extraction failure returns
none without touching the buffer.  Otherwise the sample is pushed into the
signal buffer (capacity fps * 30); with fewer than 30 buffered samples the
early return carries literal none for both vitals.  A validated heart-rate
candidate is pushed into hr_history (capacity 10) and last_hr becomes the
median of that history; with no candidate last_hr is cleared.  Breathing is
analogous behind its 60-sample gate. -/
def process_frame (fps : Nat) (st : HRMState) (f : HRMFrame) : HRMState × Option HRMOut :=
  match f.signal_value with
  | none => (st, none)
  | some v =>
    let buf := dequePush (fps * 30) st.signal_buffer v
    let st1 := { st with signal_buffer := buf }
    if buf.length < 30 then
      (st1, some { heart_rate := none, breathing_rate := none })
    else
      let heart_rate := calculate_heart_rate fps buf.length f.hr_peak_bpm
      let breathing_rate :=
        if 60 ≤ buf.length then calculate_breathing_rate fps buf.length f.br_peak_bpm
        else none
      let st2 :=
        match heart_rate with
        | some h =>
          let hh := dequePush 10 st1.hr_history h
          { st1 with hr_history := hh, last_hr := some (npMedian hh) }
        | none => { st1 with last_hr := none }
      let st3 :=
        match breathing_rate with
        | some b =>
          let bh := dequePush 10 st2.br_history b
          { st2 with br_history := bh, last_br := some (npMedian bh) }
        | none => { st2 with last_br := none }
      (st3, some { heart_rate := st3.last_hr, breathing_rate := st3.last_br })

/-- Run a frame sequence through the monitor, collecting every output. -/
def run (fps : Nat) (st : HRMState) (fs : List HRMFrame) : HRMState × List (Option HRMOut) :=
  match fs with
  | [] => (st, [])
  | f :: rest =>
    ((run fps (process_frame fps st f).1 rest).1,
     (process_frame fps st f).2 :: (run fps (process_frame fps st f).1 rest).2)

/-- All entries of a heart-rate history lie in the validated BPM range. -/
def InRangeHR (l : List ℚ) : Prop := ∀ x ∈ l, 40 ≤ x ∧ x ≤ 200

end HeartRateMonitorM

namespace CustomMetrics

/-- Result dict of HeartRateMonitor.process_frame as consumed by the
combiner. -/
structure HrOut where
  heart_rate : Option ℚ
  breathing_rate : Option ℚ
  signal_quality : ℚ
deriving DecidableEq, Repr

/-- Result dict of EyeTracker.process_frame as consumed by the combiner
(it carries a face_detected key). -/
structure EyeOut where
  gaze_direction : Gaze
  blink_rate : Option ℚ
  eye_movement_stability : ℚ
  focus_duration : ℚ
  face_detected : Bool
deriving DecidableEq, Repr

/-- The combined_metrics dict built by CustomMetricsProcessor.process_frame.
Its keys are exactly these (plus source, frame_count, timestamp, elided):
note that it carries no face_detected key. -/
structure CombinedMetrics where
  heart_rate : Option ℚ
  breathing_rate : Option ℚ
  gaze_direction : Gaze
  blink_rate : Option ℚ
  eye_movement_stability : ℚ
  focus_duration : ℚ
  signal_quality : ℚ
  overall_quality : ℚ
deriving DecidableEq, Repr

/-- The dict argument of _calculate_overall_quality, keeping only the keys
the function reads.  face_detected is an Option Bool: none models a dict
without that key, so that metrics.get with default False yields false. -/
structure QualityMetrics where
  heart_rate : Option ℚ
  signal_quality : ℚ
  face_detected : Option Bool
  eye_movement_stability : ℚ
  gaze_direction : Gaze
deriving Repr

/-- CustomMetricsProcessor._calculate_overall_quality. -/
def calculate_overall_quality (m : QualityMetrics) : ℚ :=
  let qf1 : ℚ × ℚ := (0, 0)
  let qf2 :=
    if m.heart_rate.isSome then (qf1.1 + m.signal_quality * (4/10), qf1.2 + 4/10) else qf1
  let qf3 :=
    if m.face_detected.getD false then
      (qf2.1 + m.eye_movement_stability * (3/10), qf2.2 + 3/10)
    else qf2
  let qf4 :=
    if m.gaze_direction ≠ .unknown then (qf3.1 + 30, qf3.2 + 3/10) else qf3
  let quality := if 0 < qf4.2 then qf4.1 / qf4.2 else qf4.1
  min 100 quality

/-- CustomMetricsProcessor.process_frame, combination step: merge the two
sub-results into combined_metrics with the literal defaults for absent
sub-results, then attach overall_quality.  The quality function receives
the combined dict, which has no face_detected key, hence
face_detected := none. -/
def process_frame_combine (hr_metrics : Option HrOut) (eye_metrics : Option EyeOut) :
    CombinedMetrics :=
  let heart_rate := match hr_metrics with | some h => h.heart_rate | none => none
  let breathing_rate := match hr_metrics with | some h => h.breathing_rate | none => none
  let signal_quality := match hr_metrics with | some h => h.signal_quality | none => 0
  let gaze_direction := match eye_metrics with | some e => e.gaze_direction | none => .unknown
  let blink_rate := match eye_metrics with | some e => e.blink_rate | none => none
  let eye_movement_stability :=
    match eye_metrics with | some e => e.eye_movement_stability | none => 0
  let focus_duration := match eye_metrics with | some e => e.focus_duration | none => 0
  let overall_quality := calculate_overall_quality
    { heart_rate := heart_rate
      signal_quality := signal_quality
      face_detected := none
      eye_movement_stability := eye_movement_stability
      gaze_direction := gaze_direction }
  { heart_rate := heart_rate
    breathing_rate := breathing_rate
    gaze_direction := gaze_direction
    blink_rate := blink_rate
    eye_movement_stability := eye_movement_stability
    focus_duration := focus_duration
    signal_quality := signal_quality
    overall_quality := overall_quality }

/-- Modelled from the spec (section MetricsCombiner), for comparison with
the source combiner: overall_quality as the spec words it, a weighted blend
where vitals quality contributes with weight 0.4 exactly when heart_rate is
present, eye stability with weight 0.3 exactly when a face was detected on
the frame, and a flat 30 points with weight 0.3 exactly when the gaze is
not unknown, renormalized by the contributing weights and clamped. -/
def overall_quality_spec (hr_metrics : Option HrOut) (eye_metrics : Option EyeOut) : ℚ :=
  let heart_rate := match hr_metrics with | some h => h.heart_rate | none => none
  let signal_quality := match hr_metrics with | some h => h.signal_quality | none => 0
  let face_detected := match eye_metrics with | some e => e.face_detected | none => false
  let eye_movement_stability :=
    match eye_metrics with | some e => e.eye_movement_stability | none => 0
  let gaze_direction := match eye_metrics with | some e => e.gaze_direction | none => .unknown
  let qf1 : ℚ × ℚ := (0, 0)
  let qf2 :=
    if heart_rate.isSome then (qf1.1 + signal_quality * (4/10), qf1.2 + 4/10) else qf1
  let qf3 :=
    if face_detected then (qf2.1 + eye_movement_stability * (3/10), qf2.2 + 3/10) else qf2
  let qf4 :=
    if gaze_direction ≠ Gaze.unknown then (qf3.1 + 30, qf3.2 + 3/10) else qf3
  let quality := if 0 < qf4.2 then qf4.1 / qf4.2 else qf4.1
  min 100 (max 0 quality)

/-- The blend the source actually computes through process_frame: identical
to the spec blend except that the eye-stability term is absent — the
combined dict carries no face_detected key, so that contribution can never
fire. -/
def overall_quality_noface (hr_metrics : Option HrOut) (eye_metrics : Option EyeOut) : ℚ :=
  let heart_rate := match hr_metrics with | some h => h.heart_rate | none => none
  let signal_quality := match hr_metrics with | some h => h.signal_quality | none => 0
  let gaze_direction := match eye_metrics with | some e => e.gaze_direction | none => .unknown
  let qf1 : ℚ × ℚ := (0, 0)
  let qf2 :=
    if heart_rate.isSome then (qf1.1 + signal_quality * (4/10), qf1.2 + 4/10) else qf1
  let qf4 :=
    if gaze_direction ≠ Gaze.unknown then (qf2.1 + 30, qf2.2 + 3/10) else qf2
  let quality := if 0 < qf4.2 then qf4.1 / qf4.2 else qf4.1
  min 100 quality

end CustomMetrics

namespace FallbackChain

open CustomMetrics

/-- Outcome of the first stage of process_frame_with_custom_metrics:
the custom processor may be absent (not installed), raise during
processing, or return a value (Python None or a metrics dict). -/
inductive CustomOutcome
  | unavailable
  | raised
  | returned (v : Option CombinedMetrics)
deriving Repr

/-- Outcome of the vendor (Presage) wrapper subprocess stage.  json hr br
is exit code 0 with parseable JSON stdout, the two fields read with
dict.get (absent or null gives none). -/
inductive PresageOutcome
  | wrapperMissing
  | timedOut
  | raised
  | exitNonzero (code : Int)
  | badJson
  | json (heart_rate breathing_rate : Option ℚ)
deriving Repr

/-- Tag attached to every returned record. -/
inductive Source
  | custom
  | presage
  | simulated
deriving DecidableEq, Repr

/-- The record returned by process_frame_with_custom_metrics: on the custom
path the full metrics dict travels along; the other two paths carry only
the two vitals and the tag. -/
structure FallbackVitals where
  heart_rate : Option ℚ
  breathing_rate : Option ℚ
  source : Source
deriving DecidableEq, Repr

/-- Python truthiness of an optional number: None and 0.0 are falsy. -/
def optTruthy (x : Option ℚ) : Bool :=
  match x with
  | none => false
  | some v => v ≠ 0

/-- The Presage-or-simulated tail of process_frame_with_custom_metrics:
the wrapper result is accepted only when both vitals values are truthy
(note: truthy, not merely present — a 0 or null value falls through);
otherwise the uniformly-random placeholder is returned, tagged simulated.
sim_heart_rate / sim_breathing_rate stand for the random.uniform draws. -/
def presage_fallback (presage : PresageOutcome) (sim_heart_rate sim_breathing_rate : ℚ) :
    FallbackVitals :=
  let presage_vitals : Option (Option ℚ × Option ℚ) :=
    match presage with
    | .json hr br => some (hr, br)
    | _ => none
  match presage_vitals with
  | some (hr, br) =>
    if optTruthy hr ∧ optTruthy br then
      { heart_rate := hr, breathing_rate := br, source := .presage }
    else
      { heart_rate := some sim_heart_rate, breathing_rate := some sim_breathing_rate,
        source := .simulated }
  | none =>
    { heart_rate := some sim_heart_rate, breathing_rate := some sim_breathing_rate,
      source := .simulated }

/-- process_frame_with_custom_metrics: the custom combiner result is
accepted iff it is a dict with heart_rate or breathing_rate non-none
(exceptions and Python-falsy results fall through); otherwise the vendor
wrapper is tried, then the simulated placeholder.  No path raises. -/
def process_frame_with_custom_metrics (custom : CustomOutcome) (presage : PresageOutcome)
    (sim_heart_rate sim_breathing_rate : ℚ) : FallbackVitals :=
  match custom with
  | .returned (some v) =>
    if v.heart_rate.isSome ∨ v.breathing_rate.isSome then
      { heart_rate := v.heart_rate, breathing_rate := v.breathing_rate, source := .custom }
    else presage_fallback presage sim_heart_rate sim_breathing_rate
  | _ => presage_fallback presage sim_heart_rate sim_breathing_rate

end FallbackChain

open VitalsService EyeTrackerM HeartRateMonitorM CustomMetrics FallbackChain

/-- C1: the claim states that add_metrics always completes with the three
derived scores in [0,100].  In the code, _calculate_focus_score evaluates
math.abs, which does not exist in the Python math module, so the very first
add_metrics call that carries both a heart rate and a breathing rate raises
AttributeError instead of returning a Metric: evaluated here at heart rate
80 BPM, breathing rate 15 BPM. -/
theorem c1_focus_score_raises :
    calculate_focus_score initSession (some 80) (some 15) Gaze.screen 0 0
      = .error "AttributeError: module math has no attribute abs" ∧
    (add_metrics initSession (some 80) (some 15) Gaze.screen none 0 0).2
      = .error "AttributeError: module math has no attribute abs" :=
  ⟨rfl, rfl⟩

/-- C2 counterexample: the claim states that focus_duration resets to the
delta of the current frame when a run of screen frames is interrupted.  On
the frame sequence screen, screen, away, screen (times 1, 3, 4, 5 from an
initial update time 0) the tracker reports 0, 2, 2, 2: the 4th frame
reports the pre-away total 2, not its own delta 5 - 4 = 1. -/
theorem c2_counterexample :
    (EyeTrackerM.run ⟨none, 0, 0⟩
        [⟨true, Gaze.screen, 1, 1⟩, ⟨true, Gaze.screen, 3, 3⟩,
         ⟨true, Gaze.away, 4, 4⟩, ⟨true, Gaze.screen, 5, 5⟩]).2
      = [0, 2, 2, 2] ∧
    (5 : ℚ) - 4 = 1 ∧ (2 : ℚ) ≠ 1 := by
  refine ⟨?_, by norm_num, by norm_num⟩
  simp only [EyeTrackerM.run, EyeTrackerM.process_frame, update_focus_time]
  simp
  norm_num

/-- C2 (amended): focus_duration accumulates across all runs of screen
frames and pauses, rather than resets, on an interruption: a non-screen
frame leaves the accumulated total unchanged and clears only the run
marker, and the first screen frame of a new run adds nothing; only a screen
frame inside an ongoing run adds the wall-clock delta since the previous
update. -/
theorem c2_focus_duration_pauses (st : TrackerState) (f : TrackerFrame)
    (hface : f.face_detected = true) :
    (f.gaze ≠ Gaze.screen →
      (EyeTrackerM.process_frame st f).2 = st.total_focus_time ∧
      (EyeTrackerM.process_frame st f).1.focus_start_time = none) ∧
    (f.gaze = Gaze.screen → st.focus_start_time = none →
      (EyeTrackerM.process_frame st f).2 = st.total_focus_time) ∧
    (f.gaze = Gaze.screen → st.focus_start_time ≠ none →
      (EyeTrackerM.process_frame st f).2
        = st.total_focus_time + (f.current_time - st.last_update_time)) := by
  have hpf : EyeTrackerM.process_frame st f =
      (update_focus_time st f, (update_focus_time st f).total_focus_time) := by
    simp [EyeTrackerM.process_frame, hface]
  refine ⟨fun hg => ?_, fun hg hs => ?_, fun hg hs => ?_⟩
  · rw [hpf]; simp [update_focus_time, hg]
  · rw [hpf]; simp [update_focus_time, hg, hs]
  · rw [hpf]
    rcases h : st.focus_start_time with _ | t
    · exact absurd h hs
    · simp [update_focus_time, hg, h]

/-- C2 witness: the amended theorem applied to a concrete interrupting
frame: an away frame at time 5 on a tracker that had an ongoing run and an
accumulated total of 2 seconds. -/
theorem c2_focus_duration_pauses_witness :
    ((Gaze.away ≠ Gaze.screen →
      (EyeTrackerM.process_frame ⟨some 1, 2, 3⟩ ⟨true, Gaze.away, 5, 5⟩).2
        = (2 : ℚ) ∧
      (EyeTrackerM.process_frame ⟨some 1, 2, 3⟩ ⟨true, Gaze.away, 5, 5⟩).1.focus_start_time
        = none) ∧
    (Gaze.away = Gaze.screen → (some (1 : ℚ)) = none →
      (EyeTrackerM.process_frame ⟨some 1, 2, 3⟩ ⟨true, Gaze.away, 5, 5⟩).2 = (2 : ℚ)) ∧
    (Gaze.away = Gaze.screen → (some (1 : ℚ)) ≠ none →
      (EyeTrackerM.process_frame ⟨some 1, 2, 3⟩ ⟨true, Gaze.away, 5, 5⟩).2
        = (2 : ℚ) + ((5 : ℚ) - 3))) :=
  c2_focus_duration_pauses ⟨some 1, 2, 3⟩ ⟨true, Gaze.away, 5, 5⟩ rfl

/-- C5 counterexample: the claim states that eye-movement stability
contributes with weight 0.3 exactly when a face was detected on the frame.
On a frame where a face was detected (face_detected true, stability 80),
with heart rate present (signal quality 50) and gaze on screen, the source
computes (50 * 0.4 + 30) / 0.7 = 500/7, because the combined record passed
to the quality function carries no face_detected key; the claimed blend
would give (50 * 0.4 + 80 * 0.3 + 30) / 1 = 74. -/
theorem c5_counterexample :
    (process_frame_combine (some ⟨some 80, none, 50⟩)
        (some ⟨Gaze.screen, none, 80, 0, true⟩)).overall_quality = 500 / 7 ∧
    overall_quality_spec (some ⟨some 80, none, 50⟩)
        (some ⟨Gaze.screen, none, 80, 0, true⟩) = 74 ∧
    (500 / 7 : ℚ) ≠ 74 := by
  refine ⟨?_, ?_, by norm_num⟩
  · simp only [process_frame_combine, calculate_overall_quality]
    simp
    norm_num
  · simp only [overall_quality_spec]
    simp
    norm_num

/-- C6 counterexample: the claim states the vendor result is accepted iff
both heart_rate and breathing_rate fields are present in its JSON output.
With the custom processor absent and the vendor emitting JSON where both
fields are present but heart_rate is 0, the source rejects the vendor
result (Python truthiness) and returns the simulated placeholder. -/
theorem c6_counterexample :
    process_frame_with_custom_metrics CustomOutcome.unavailable
        (PresageOutcome.json (some 0) (some 15)) 70 16
      = { heart_rate := some 70, breathing_rate := some 16, source := Source.simulated } ∧
    (some (0 : ℚ)).isSome = true ∧ (some (15 : ℚ)).isSome = true :=
  ⟨rfl, rfl, rfl⟩

/-- C7: the claim states total_frames equals the number of add_metrics
calls.  Because _calculate_focus_score raises AttributeError (math.abs)
whenever both vitals are present, a call can fail after updating the
vitals histories but before recording the Metric: after the two calls
(heart rate 70, breathing rate missing) and (heart rate 80, breathing rate
15), the second call raises and total_frames is 1, not 2. -/
theorem c7_total_frames_miscount :
    ((get_aggregated_metrics (run_add_metrics initSession
        [⟨some 70, none, Gaze.screen, none, 0, 0⟩,
         ⟨some 80, some 15, Gaze.screen, none, 0, 0⟩])).map
      (·.total_frames) = some 1) ∧
    ((add_metrics (run_add_metrics initSession [⟨some 70, none, Gaze.screen, none, 0, 0⟩])
        (some 80) (some 15) Gaze.screen none 0 0).2
      = .error "AttributeError: module math has no attribute abs") ∧
    (1 : Nat) ≠ 2 :=
  ⟨rfl, rfl, by decide⟩

/-- C5 (amended): for every combined metrics record, overall_quality equals
the weighted blend in which signal quality contributes with weight 0.4
exactly when heart_rate is present and the flat 30 points contribute with
weight 0.3 exactly when gaze is not unknown, renormalized by the
contributing weights and capped at 100; the eye-stability term never
contributes, because the combined record passed to the quality function
carries no face_detected key. -/
theorem c5_overall_quality_noface (hr_metrics : Option HrOut) (eye_metrics : Option EyeOut) :
    (process_frame_combine hr_metrics eye_metrics).overall_quality
      = overall_quality_noface hr_metrics eye_metrics := by
  rcases hr_metrics with _ | h <;> rcases eye_metrics with _ | e <;>
    simp [process_frame_combine, calculate_overall_quality, overall_quality_noface]

/-- C10: when either vital is missing, add_metrics completes and the
returned Metric carries focus_score, engagement_score and
thinking_intensity all exactly 0, regardless of session state, gaze,
blink rate, stability and focus duration. -/
theorem c10_missing_vital_zeroes_scores (st : SessionState)
    (heart_rate breathing_rate : Option ℚ) (gaze_direction : Gaze)
    (blink_rate : Option ℚ) (eye_movement_stability focus_duration : ℚ)
    (h : heart_rate = none ∨ breathing_rate = none) :
    ∃ m : Metric,
      (add_metrics st heart_rate breathing_rate gaze_direction blink_rate
          eye_movement_stability focus_duration).2 = .ok m ∧
      m.focus_score = 0 ∧ m.engagement_score = 0 ∧ m.thinking_intensity = 0 := by
  rcases h with h | h
  · subst h
    exact ⟨_, rfl, rfl, rfl, rfl⟩
  · subst h
    cases heart_rate with
    | none => exact ⟨_, rfl, rfl, rfl, rfl⟩
    | some hr => exact ⟨_, rfl, rfl, rfl, rfl⟩

/-- C10 witness: a concrete call with the heart rate missing but the
breathing rate and all eye-tracking inputs present. -/
theorem c10_missing_vital_zeroes_scores_witness :
    ∃ m : Metric,
      (add_metrics initSession none (some 15) Gaze.screen (some 10) (1/2) 3).2 = .ok m ∧
      m.focus_score = 0 ∧ m.engagement_score = 0 ∧ m.thinking_intensity = 0 :=
  c10_missing_vital_zeroes_scores initSession none (some 15) Gaze.screen (some 10) (1/2) 3
    (Or.inl rfl)

/-- C9: start_session is idempotent on an existing id: with a truthy
session id and api key, when the id is already in the registry the handler
answers success without replacing the stored session, so every metric
accumulated in it (histories, baselines, frame count) is untouched. -/
theorem c9_start_session_idempotent (sessions : List (String × SessionState))
    (sid k envKey : String) (s : SessionState)
    (h1 : sid ≠ "") (h2 : k ≠ "") (h3 : sessions.lookup sid = some s) :
    start_session sessions ⟨some sid, some k⟩ envKey
      = (sessions, .ok sid "Session already exists") ∧
    (start_session sessions ⟨some sid, some k⟩ envKey).1.lookup sid = some s := by
  have hres : start_session sessions ⟨some sid, some k⟩ envKey
      = (sessions, .ok sid "Session already exists") := by
    simp [start_session, h1, h2, h3]
  exact ⟨hres, by rw [hres]; exact h3⟩

/-- C9 witness: a registry holding session s1 with one accumulated metrics
reading; a second start call for s1 succeeds and leaves it untouched. -/
theorem c9_start_session_idempotent_witness :
    start_session
        [("s1", run_add_metrics initSession [⟨some 70, none, Gaze.screen, none, 0, 0⟩])]
        ⟨some "s1", some "key"⟩ ""
      = ([("s1", run_add_metrics initSession [⟨some 70, none, Gaze.screen, none, 0, 0⟩])],
         .ok "s1" "Session already exists") ∧
    (start_session
        [("s1", run_add_metrics initSession [⟨some 70, none, Gaze.screen, none, 0, 0⟩])]
        ⟨some "s1", some "key"⟩ "").1.lookup "s1"
      = some (run_add_metrics initSession [⟨some 70, none, Gaze.screen, none, 0, 0⟩]) :=
  c9_start_session_idempotent _ "s1" "key" "" _ (by decide) (by decide) rfl

/-- C6 (amended): the fallback chain accepts the custom result iff it is a
metrics dict with heart_rate or breathing_rate non-none (absence, an
exception or a Python-falsy result all fall through); the vendor JSON
result is accepted iff both vitals values are truthy — present, non-null
and non-zero — not merely present; every other outcome, including timeout,
non-zero exit, missing wrapper and malformed JSON, yields the simulated
placeholder with the random draws (uniform on [65,85] and [14,18]) passed
through, and no path surfaces an error. -/
theorem c6_fallback_chain (v : CombinedMetrics) (presage : PresageOutcome)
    (hr br : Option ℚ) (code : Int) (shr sbr : ℚ)
    (h65 : 65 ≤ shr) (h85 : shr ≤ 85) (h14 : 14 ≤ sbr) (h18 : sbr ≤ 18) :
    (v.heart_rate.isSome ∨ v.breathing_rate.isSome →
      process_frame_with_custom_metrics (.returned (some v)) presage shr sbr
        = ⟨v.heart_rate, v.breathing_rate, .custom⟩) ∧
    (¬(v.heart_rate.isSome ∨ v.breathing_rate.isSome) →
      process_frame_with_custom_metrics (.returned (some v)) presage shr sbr
        = presage_fallback presage shr sbr) ∧
    (process_frame_with_custom_metrics .unavailable presage shr sbr
      = presage_fallback presage shr sbr) ∧
    (process_frame_with_custom_metrics .raised presage shr sbr
      = presage_fallback presage shr sbr) ∧
    (process_frame_with_custom_metrics (.returned none) presage shr sbr
      = presage_fallback presage shr sbr) ∧
    (optTruthy hr = true → optTruthy br = true →
      presage_fallback (.json hr br) shr sbr = ⟨hr, br, .presage⟩) ∧
    (¬(optTruthy hr = true ∧ optTruthy br = true) →
      presage_fallback (.json hr br) shr sbr = ⟨some shr, some sbr, .simulated⟩) ∧
    (presage_fallback .wrapperMissing shr sbr = ⟨some shr, some sbr, .simulated⟩) ∧
    (presage_fallback .timedOut shr sbr = ⟨some shr, some sbr, .simulated⟩) ∧
    (presage_fallback .raised shr sbr = ⟨some shr, some sbr, .simulated⟩) ∧
    (presage_fallback (.exitNonzero code) shr sbr = ⟨some shr, some sbr, .simulated⟩) ∧
    (presage_fallback .badJson shr sbr = ⟨some shr, some sbr, .simulated⟩) ∧
    (65 ≤ shr ∧ shr ≤ 85 ∧ 14 ≤ sbr ∧ sbr ≤ 18) := by
  refine ⟨fun h => ?_, fun h => ?_, rfl, rfl, rfl, fun hh hb => ?_, fun h => ?_,
    rfl, rfl, rfl, rfl, rfl, h65, h85, h14, h18⟩
  · simp [process_frame_with_custom_metrics, h]
  · simp [process_frame_with_custom_metrics, h]
  · simp [presage_fallback, hh, hb]
  · have : ¬(optTruthy hr ∧ optTruthy br) := by
      simpa using h
    simp [presage_fallback, this]

/-- C6 witness: the amended theorem at a concrete custom result carrying a
heart rate, a concrete vendor JSON with both values truthy, exit code 2 for
the non-zero-exit case, and placeholder draws 70 BPM and 16 BPM. -/
theorem c6_fallback_chain_witness :
    ((⟨some 75, none, Gaze.screen, none, 50, 0, 50, 80⟩ :
          CombinedMetrics).heart_rate.isSome ∨
       (⟨some 75, none, Gaze.screen, none, 50, 0, 50, 80⟩ :
          CombinedMetrics).breathing_rate.isSome →
      process_frame_with_custom_metrics
          (.returned (some ⟨some 75, none, Gaze.screen, none, 50, 0, 50, 80⟩))
          PresageOutcome.timedOut 70 16
        = ⟨(⟨some 75, none, Gaze.screen, none, 50, 0, 50, 80⟩ :
              CombinedMetrics).heart_rate,
           (⟨some 75, none, Gaze.screen, none, 50, 0, 50, 80⟩ :
              CombinedMetrics).breathing_rate, .custom⟩) ∧
    (¬((⟨some 75, none, Gaze.screen, none, 50, 0, 50, 80⟩ :
          CombinedMetrics).heart_rate.isSome ∨
       (⟨some 75, none, Gaze.screen, none, 50, 0, 50, 80⟩ :
          CombinedMetrics).breathing_rate.isSome) →
      process_frame_with_custom_metrics
          (.returned (some ⟨some 75, none, Gaze.screen, none, 50, 0, 50, 80⟩))
          PresageOutcome.timedOut 70 16
        = presage_fallback PresageOutcome.timedOut 70 16) ∧
    (process_frame_with_custom_metrics .unavailable PresageOutcome.timedOut 70 16
      = presage_fallback PresageOutcome.timedOut 70 16) ∧
    (process_frame_with_custom_metrics .raised PresageOutcome.timedOut 70 16
      = presage_fallback PresageOutcome.timedOut 70 16) ∧
    (process_frame_with_custom_metrics (.returned none) PresageOutcome.timedOut 70 16
      = presage_fallback PresageOutcome.timedOut 70 16) ∧
    (optTruthy (some 80) = true → optTruthy (some 16) = true →
      presage_fallback (.json (some 80) (some 16)) 70 16
        = ⟨some 80, some 16, .presage⟩) ∧
    (¬(optTruthy (some 80) = true ∧ optTruthy (some 16) = true) →
      presage_fallback (.json (some 80) (some 16)) 70 16
        = ⟨some 70, some 16, .simulated⟩) ∧
    (presage_fallback .wrapperMissing 70 16 = ⟨some 70, some 16, .simulated⟩) ∧
    (presage_fallback .timedOut 70 16 = ⟨some 70, some 16, .simulated⟩) ∧
    (presage_fallback .raised 70 16 = ⟨some 70, some 16, .simulated⟩) ∧
    (presage_fallback (.exitNonzero 2) 70 16 = ⟨some 70, some 16, .simulated⟩) ∧
    (presage_fallback .badJson 70 16 = ⟨some 70, some 16, .simulated⟩) ∧
    ((65 : ℚ) ≤ 70 ∧ (70 : ℚ) ≤ 85 ∧ (14 : ℚ) ≤ 16 ∧ (16 : ℚ) ≤ 18) :=
  c6_fallback_chain ⟨some 75, none, Gaze.screen, none, 50, 0, 50, 80⟩
    PresageOutcome.timedOut (some 80) (some 16) 2 70 16
    (by norm_num) (by norm_num) (by norm_num) (by norm_num)

set_option maxRecDepth 20000 in
/-- C8 counterexample: the claim says heart_rate stays none until fps x 1
samples are buffered, for every configured fps.  The gate in the source is
the fixed count 30, independent of fps: at fps 60, after only 30 samples
(half of fps x 1), a frame whose in-band spectral peak sits at 90 BPM
already yields heart_rate 90. -/
theorem c8_counterexample :
    ((HeartRateMonitorM.run 60 initHRM
        (List.replicate 30 ⟨some 1, some 90, none⟩)).2.getLast?
      = some (some { heart_rate := some 90, breathing_rate := none })) ∧
    ((HeartRateMonitorM.run 60 initHRM
        (List.replicate 30 ⟨some 1, some 90, none⟩)).1.signal_buffer.length = 30) ∧
    30 < 60 * 1 :=
  ⟨rfl, rfl, by norm_num⟩

/-- C8 (amended): the buffering gates are fixed sample counts, not
functions of fps: a frame output carries none for heart_rate whenever
fewer than 30 samples are buffered and none for breathing_rate whenever
fewer than 60 are — one and two seconds of data at the default 30 fps. -/
theorem c8_min_buffer_gates (fps : Nat) (st st' : HRMState) (f : HRMFrame) (out : HRMOut)
    (h : HeartRateMonitorM.process_frame fps st f = (st', some out)) :
    (st'.signal_buffer.length < 30 →
      out.heart_rate = none ∧ out.breathing_rate = none) ∧
    (st'.signal_buffer.length < 60 → out.breathing_rate = none) := by
  rcases f with ⟨sv, hp, bp⟩
  cases sv with
  | none => simp [HeartRateMonitorM.process_frame] at h
  | some v =>
    simp only [HeartRateMonitorM.process_frame] at h
    by_cases hlen : (dequePush (fps * 30) st.signal_buffer v).length < 30
    · rw [if_pos hlen] at h
      obtain ⟨hst, hout⟩ := Prod.mk.injEq .. ▸ h
      cases hout
      subst hst
      exact ⟨fun _ => ⟨rfl, rfl⟩, fun _ => rfl⟩
    · rw [if_neg hlen] at h
      by_cases hbr : 60 ≤ (dequePush (fps * 30) st.signal_buffer v).length
      · rw [if_pos hbr] at h
        refine ⟨fun hlt => ?_, fun hlt => ?_⟩
        · exfalso
          have hbuf : st'.signal_buffer = dequePush (fps * 30) st.signal_buffer v := by
            rcases hhr : calculate_heart_rate fps
                (dequePush (fps * 30) st.signal_buffer v).length hp with _ | hval <;>
              rcases hbrr : calculate_breathing_rate fps
                (dequePush (fps * 30) st.signal_buffer v).length bp with _ | bval <;>
              rw [hhr, hbrr] at h <;> cases h <;> rfl
          rw [hbuf] at hlt
          omega
        · exfalso
          have hbuf : st'.signal_buffer = dequePush (fps * 30) st.signal_buffer v := by
            rcases hhr : calculate_heart_rate fps
                (dequePush (fps * 30) st.signal_buffer v).length hp with _ | hval <;>
              rcases hbrr : calculate_breathing_rate fps
                (dequePush (fps * 30) st.signal_buffer v).length bp with _ | bval <;>
              rw [hhr, hbrr] at h <;> cases h <;> rfl
          rw [hbuf] at hlt
          omega
      · rw [if_neg hbr] at h
        refine ⟨fun hlt => ?_, fun _ => ?_⟩
        · exfalso
          have hbuf : st'.signal_buffer = dequePush (fps * 30) st.signal_buffer v := by
            rcases hhr : calculate_heart_rate fps
                (dequePush (fps * 30) st.signal_buffer v).length hp with _ | hval <;>
              rw [hhr] at h <;> cases h <;> rfl
          rw [hbuf] at hlt
          omega
        · rcases hhr : calculate_heart_rate fps
              (dequePush (fps * 30) st.signal_buffer v).length hp with _ | hval <;>
            rw [hhr] at h <;> cases h <;> rfl

/-- C8 witness: the amended theorem at the very first frame of a session
at 30 fps: one buffered sample, both vitals reported none. -/
theorem c8_min_buffer_gates_witness :
    (((⟨[1], [], [], none, none⟩ : HRMState).signal_buffer.length < 30 →
      ({ heart_rate := none, breathing_rate := none } : HRMOut).heart_rate = none ∧
      ({ heart_rate := none, breathing_rate := none } : HRMOut).breathing_rate = none) ∧
    ((⟨[1], [], [], none, none⟩ : HRMState).signal_buffer.length < 60 →
      ({ heart_rate := none, breathing_rate := none } : HRMOut).breathing_rate = none)) :=
  c8_min_buffer_gates 30 initHRM ⟨[1], [], [], none, none⟩ ⟨some 1, some 90, none⟩
    { heart_rate := none, breathing_rate := none } rfl

theorem dequePush_eq_append {α : Type} (cap : Nat) (l : List α) (x : α)
    (h : l.length + 1 ≤ cap) : dequePush cap l x = l ++ [x] := by
  unfold dequePush
  rw [if_neg]
  simp
  omega

theorem push_breathing_rate_heart_rates (st : SessionState) (br : Option ℚ) :
    (push_breathing_rate st br).heart_rates = st.heart_rates := by
  cases br <;> rfl

theorem push_breathing_rate_baseline_hr (st : SessionState) (br : Option ℚ) :
    (push_breathing_rate st br).baseline_heart_rate = st.baseline_heart_rate := by
  cases br <;> rfl

theorem push_heart_rate_breathing_rates (st : SessionState) (hr : Option ℚ) :
    (push_heart_rate st hr).breathing_rates = st.breathing_rates := by
  cases hr <;> rfl

theorem push_heart_rate_baseline_br (st : SessionState) (hr : Option ℚ) :
    (push_heart_rate st hr).baseline_breathing_rate = st.baseline_breathing_rate := by
  cases hr <;> rfl

theorem push_eye_metrics_vitals (st : SessionState) (g : Gaze) (bl : Option ℚ) (e f : ℚ) :
    (push_eye_metrics st g bl e f).heart_rates = st.heart_rates ∧
    (push_eye_metrics st g bl e f).baseline_heart_rate = st.baseline_heart_rate ∧
    (push_eye_metrics st g bl e f).breathing_rates = st.breathing_rates ∧
    (push_eye_metrics st g bl e f).baseline_breathing_rate = st.baseline_breathing_rate :=
  ⟨rfl, rfl, rfl, rfl⟩

theorem add_metrics_fst_vitals (st : SessionState) (hr br : Option ℚ) (g : Gaze)
    (bl : Option ℚ) (e f : ℚ) :
    ((add_metrics st hr br g bl e f).1).heart_rates
        = (push_heart_rate st hr).heart_rates ∧
    ((add_metrics st hr br g bl e f).1).baseline_heart_rate
        = (push_heart_rate st hr).baseline_heart_rate ∧
    ((add_metrics st hr br g bl e f).1).breathing_rates
        = (push_breathing_rate (push_heart_rate st hr) br).breathing_rates ∧
    ((add_metrics st hr br g bl e f).1).baseline_breathing_rate
        = (push_breathing_rate (push_heart_rate st hr) br).baseline_breathing_rate := by
  simp only [add_metrics]
  rcases hfs : calculate_focus_score
      (push_eye_metrics (push_breathing_rate (push_heart_rate st hr) br) g bl e f)
      hr br g e f with e' | fs <;>
    simp [hfs, push_eye_metrics, push_breathing_rate_heart_rates,
      push_breathing_rate_baseline_hr]

theorem push_heart_rate_inv (st : SessionState) (hrs : List ℚ) (x : Option ℚ)
    (h : HeartInv st hrs) : HeartInv (push_heart_rate st x) (hrs ++ x.toList) := by
  cases x with
  | none => simpa using h
  | some v =>
    obtain ⟨h1, h2⟩ := h
    constructor
    · intro hlt
      have hlen : hrs.length + 1 < 5 := by simpa using hlt
      obtain ⟨hb, hl⟩ := h1 (by omega)
      have hpush : dequePush 30 st.heart_rates v = hrs ++ [v] := by
        rw [hl]; exact dequePush_eq_append 30 hrs v (by omega)
      constructor
      · simp only [push_heart_rate, hpush]
        rw [if_neg]
        · exact hb
        · simp
          omega
      · simp [push_heart_rate, hpush]
    · intro hge
      have hge' : 5 ≤ hrs.length + 1 := by simpa using hge
      by_cases hcase : 5 ≤ hrs.length
      · have hb := h2 hcase
        have htake : (hrs ++ [v]).take 5 = hrs.take 5 :=
          List.take_append_of_le_length hcase
        simp only [push_heart_rate, Option.toList, htake]
        rw [if_neg]
        · exact hb
        · simp [hb]
      · have h4 : hrs.length = 4 := by omega
        obtain ⟨hb, hl⟩ := h1 (by omega)
        have hpush : dequePush 30 st.heart_rates v = hrs ++ [v] := by
          rw [hl]; exact dequePush_eq_append 30 hrs v (by omega)
        have hlen5 : (hrs ++ [v]).length = 5 := by simp [h4]
        have htake : (hrs ++ [v]).take 5 = hrs ++ [v] := by
          rw [← hlen5]; exact List.take_length _
        have hcond : st.baseline_heart_rate = none ∧ 5 ≤ (hrs ++ [v]).length :=
          ⟨hb, by omega⟩
        simp only [push_heart_rate, Option.toList, hpush, if_pos hcond, htake]

theorem push_breathing_rate_inv (st : SessionState) (brs : List ℚ) (x : Option ℚ)
    (h : BreathInv st brs) : BreathInv (push_breathing_rate st x) (brs ++ x.toList) := by
  cases x with
  | none => simpa using h
  | some v =>
    obtain ⟨h1, h2⟩ := h
    constructor
    · intro hlt
      have hlen : brs.length + 1 < 5 := by simpa using hlt
      obtain ⟨hb, hl⟩ := h1 (by omega)
      have hpush : dequePush 30 st.breathing_rates v = brs ++ [v] := by
        rw [hl]; exact dequePush_eq_append 30 brs v (by omega)
      constructor
      · simp only [push_breathing_rate, hpush]
        rw [if_neg]
        · exact hb
        · simp
          omega
      · simp [push_breathing_rate, hpush]
    · intro hge
      have hge' : 5 ≤ brs.length + 1 := by simpa using hge
      by_cases hcase : 5 ≤ brs.length
      · have hb := h2 hcase
        have htake : (brs ++ [v]).take 5 = brs.take 5 :=
          List.take_append_of_le_length hcase
        simp only [push_breathing_rate, Option.toList, htake]
        rw [if_neg]
        · exact hb
        · simp [hb]
      · have h4 : brs.length = 4 := by omega
        obtain ⟨hb, hl⟩ := h1 (by omega)
        have hpush : dequePush 30 st.breathing_rates v = brs ++ [v] := by
          rw [hl]; exact dequePush_eq_append 30 brs v (by omega)
        have hlen5 : (brs ++ [v]).length = 5 := by simp [h4]
        have htake : (brs ++ [v]).take 5 = brs ++ [v] := by
          rw [← hlen5]; exact List.take_length _
        have hcond : st.baseline_breathing_rate = none ∧ 5 ≤ (brs ++ [v]).length :=
          ⟨hb, by omega⟩
        simp only [push_breathing_rate, Option.toList, hpush, if_pos hcond, htake]

theorem add_metrics_heart_inv (st : SessionState) (hrs : List ℚ) (c : AddInput)
    (h : HeartInv st hrs) :
    HeartInv (add_metrics st c.heart_rate c.breathing_rate c.gaze_direction c.blink_rate
        c.eye_movement_stability c.focus_duration).1
      (hrs ++ c.heart_rate.toList) := by
  have hstep := push_heart_rate_inv st hrs c.heart_rate h
  obtain ⟨p1, p2, _, _⟩ := add_metrics_fst_vitals st c.heart_rate c.breathing_rate
    c.gaze_direction c.blink_rate c.eye_movement_stability c.focus_duration
  unfold HeartInv at hstep ⊢
  rw [p1, p2]
  exact hstep

theorem add_metrics_breath_inv (st : SessionState) (brs : List ℚ) (c : AddInput)
    (h : BreathInv st brs) :
    BreathInv (add_metrics st c.heart_rate c.breathing_rate c.gaze_direction c.blink_rate
        c.eye_movement_stability c.focus_duration).1
      (brs ++ c.breathing_rate.toList) := by
  have h' : BreathInv (push_heart_rate st c.heart_rate) brs := by
    unfold BreathInv at h ⊢
    rw [push_heart_rate_breathing_rates, push_heart_rate_baseline_br]
    exact h
  have hstep := push_breathing_rate_inv (push_heart_rate st c.heart_rate) brs
    c.breathing_rate h'
  obtain ⟨_, _, p3, p4⟩ := add_metrics_fst_vitals st c.heart_rate c.breathing_rate
    c.gaze_direction c.blink_rate c.eye_movement_stability c.focus_duration
  unfold BreathInv at hstep ⊢
  rw [p3, p4]
  exact hstep

theorem run_add_metrics_inv (calls : List AddInput) :
    ∀ (st : SessionState) (hrs brs : List ℚ),
      HeartInv st hrs → BreathInv st brs →
      HeartInv (run_add_metrics st calls) (hrs ++ calls.filterMap (·.heart_rate)) ∧
      BreathInv (run_add_metrics st calls) (brs ++ calls.filterMap (·.breathing_rate)) := by
  induction calls with
  | nil =>
    intro st hrs brs hh hb
    simpa [run_add_metrics] using ⟨hh, hb⟩
  | cons c rest ih =>
    intro st hrs brs hh hb
    have hh' := add_metrics_heart_inv st hrs c hh
    have hb' := add_metrics_breath_inv st brs c hb
    have hrun : run_add_metrics st (c :: rest)
        = run_add_metrics
            (add_metrics st c.heart_rate c.breathing_rate c.gaze_direction c.blink_rate
              c.eye_movement_stability c.focus_duration).1 rest := by
      simp [run_add_metrics]
    obtain ⟨r1, r2⟩ := ih _ _ _ hh' hb'
    rw [hrun]
    constructor
    · have : hrs ++ List.filterMap (fun c => c.heart_rate) (c :: rest)
          = (hrs ++ c.heart_rate.toList) ++ rest.filterMap (·.heart_rate) := by
        rw [List.filterMap_cons]
        cases c.heart_rate <;> simp
      rw [this]
      exact r1
    · have : brs ++ List.filterMap (fun c => c.breathing_rate) (c :: rest)
          = (brs ++ c.breathing_rate.toList) ++ rest.filterMap (·.breathing_rate) := by
        rw [List.filterMap_cons]
        cases c.breathing_rate <;> simp
      rw [this]
      exact r2

/-- C3: for every sequence of add_metrics calls on a fresh session, the
heart-rate baseline is none exactly while fewer than 5 non-none heart-rate
readings have arrived, and from the 5th reading on it equals the mean of
the first 5 non-none readings — set once and never recomputed, since the
right-hand side depends only on the first 5 readings of the sequence; the
breathing-rate baseline behaves identically over breathing readings. -/
theorem c3_baseline_first_five (calls : List AddInput) :
    ((run_add_metrics initSession calls).baseline_heart_rate
      = if (calls.filterMap (·.heart_rate)).length < 5 then none
        else some (listMean ((calls.filterMap (·.heart_rate)).take 5))) ∧
    ((run_add_metrics initSession calls).baseline_breathing_rate
      = if (calls.filterMap (·.breathing_rate)).length < 5 then none
        else some (listMean ((calls.filterMap (·.breathing_rate)).take 5))) := by
  have hinit_h : HeartInv initSession [] := by
    constructor
    · intro _; exact ⟨rfl, rfl⟩
    · intro h; simp at h
  have hinit_b : BreathInv initSession [] := by
    constructor
    · intro _; exact ⟨rfl, rfl⟩
    · intro h; simp at h
  obtain ⟨⟨h1, h2⟩, ⟨b1, b2⟩⟩ := run_add_metrics_inv calls initSession [] [] hinit_h hinit_b
  constructor
  · by_cases hlen : (calls.filterMap (·.heart_rate)).length < 5
    · rw [if_pos hlen]
      exact (h1 (by simpa using hlen)).1
    · rw [if_neg hlen]
      simpa using h2 (by simpa using Nat.le_of_not_lt hlen)
  · by_cases hlen : (calls.filterMap (·.breathing_rate)).length < 5
    · rw [if_pos hlen]
      exact (b1 (by simpa using hlen)).1
    · rw [if_neg hlen]
      simpa using b2 (by simpa using Nat.le_of_not_lt hlen)


theorem mem_dequePush {α : Type} {cap : Nat} {l : List α} {x y : α}
    (h : y ∈ dequePush cap l x) : y ∈ l ∨ y = x := by
  unfold dequePush at h
  have h' : y ∈ l ++ [x] := by
    by_cases hc : cap < (l ++ [x]).length
    · rw [if_pos hc] at h
      exact List.drop_subset _ _ h
    · rwa [if_neg hc] at h
  rcases List.mem_append.mp h' with h'' | h''
  · exact Or.inl h''
  · exact Or.inr (List.mem_singleton.mp h'')

theorem dequePush_ne_nil {α : Type} (cap : Nat) (l : List α) (x : α) (hcap : 0 < cap) :
    dequePush cap l x ≠ [] := by
  unfold dequePush
  by_cases hc : cap < (l ++ [x]).length
  · rw [if_pos hc]
    have : ((l ++ [x]).drop ((l ++ [x]).length - cap)).length = cap := by
      rw [List.length_drop]
      omega
    intro hnil
    rw [hnil] at this
    simp at this
    omega
  · rw [if_neg hc]
    simp

theorem npMedian_bounds (l : List ℚ) (hne : l ≠ []) (a b : ℚ)
    (h : ∀ x ∈ l, a ≤ x ∧ x ≤ b) : a ≤ npMedian l ∧ npMedian l ≤ b := by
  unfold npMedian
  have hperm := List.perm_insertionSort (· ≤ ·) l
  have hmem : ∀ x ∈ List.insertionSort (· ≤ ·) l, a ≤ x ∧ x ≤ b :=
    fun x hx => h x (hperm.mem_iff.mp hx)
  have hpos : 0 < (List.insertionSort (· ≤ ·) l).length := by
    rw [hperm.length_eq]
    exact List.length_pos.mpr hne
  by_cases hodd : (List.insertionSort (· ≤ ·) l).length % 2 = 1
  · simp only [if_pos hodd]
    have hidx : (List.insertionSort (· ≤ ·) l).length / 2
        < (List.insertionSort (· ≤ ·) l).length :=
      Nat.div_lt_self hpos (by norm_num)
    rw [List.getD_eq_getElem _ 0 hidx]
    exact hmem _ (List.getElem_mem hidx)
  · simp only [if_neg hodd]
    have h2 : 2 ≤ (List.insertionSort (· ≤ ·) l).length := by omega
    have hi1 : (List.insertionSort (· ≤ ·) l).length / 2 - 1
        < (List.insertionSort (· ≤ ·) l).length := by omega
    have hi2 : (List.insertionSort (· ≤ ·) l).length / 2
        < (List.insertionSort (· ≤ ·) l).length :=
      Nat.div_lt_self hpos (by norm_num)
    rw [List.getD_eq_getElem _ 0 hi1, List.getD_eq_getElem _ 0 hi2]
    obtain ⟨ha1, hb1⟩ := hmem _ (List.getElem_mem hi1)
    obtain ⟨ha2, hb2⟩ := hmem _ (List.getElem_mem hi2)
    constructor <;> linarith

theorem calculate_heart_rate_range {fps n : Nat} {p : Option ℚ} {v : ℚ}
    (h : calculate_heart_rate fps n p = some v) : 40 ≤ v ∧ v ≤ 200 := by
  rcases p with _ | bpm <;>
    simp only [calculate_heart_rate] at h <;>
    split_ifs at h <;>
    simp_all

theorem process_frame_hr_inv (fps : Nat) (st : HRMState) (f : HRMFrame)
    (hinv : InRangeHR st.hr_history) :
    InRangeHR (HeartRateMonitorM.process_frame fps st f).1.hr_history ∧
    (∀ out : HRMOut, (HeartRateMonitorM.process_frame fps st f).2 = some out →
      ∀ v : ℚ, out.heart_rate = some v → 40 ≤ v ∧ v ≤ 200) := by
  rcases f with ⟨sv, hp, bp⟩
  cases sv with
  | none =>
    refine ⟨hinv, ?_⟩
    intro out hout
    simp [HeartRateMonitorM.process_frame] at hout
  | some w =>
    by_cases hlen : (dequePush (fps * 30) st.signal_buffer w).length < 30
    · constructor
      · simp only [HeartRateMonitorM.process_frame, if_pos hlen]
        exact hinv
      · intro out hout v hv
        simp only [HeartRateMonitorM.process_frame, if_pos hlen, Option.some.injEq] at hout
        rw [← hout] at hv
        simp at hv
    · rcases hhr : calculate_heart_rate fps
          (dequePush (fps * 30) st.signal_buffer w).length hp with _ | hval
      · constructor
        · simp only [HeartRateMonitorM.process_frame, if_neg hlen, hhr]
          rcases hbr : (if 60 ≤ (dequePush (fps * 30) st.signal_buffer w).length then
              calculate_breathing_rate fps
                (dequePush (fps * 30) st.signal_buffer w).length bp
            else none) with _ | bval <;> simp [hbr] <;> exact hinv
        · intro out hout v hv
          simp only [HeartRateMonitorM.process_frame, if_neg hlen, hhr] at hout
          rcases hbr : (if 60 ≤ (dequePush (fps * 30) st.signal_buffer w).length then
              calculate_breathing_rate fps
                (dequePush (fps * 30) st.signal_buffer w).length bp
            else none) with _ | bval <;>
            rw [hbr] at hout <;>
            simp only [Option.some.injEq] at hout <;>
            rw [← hout] at hv <;>
            simp at hv
      · have hrange := calculate_heart_rate_range hhr
        have hpushinv : InRangeHR (dequePush 10 st.hr_history hval) := by
          intro x hx
          rcases mem_dequePush hx with hx' | hx'
          · exact hinv x hx'
          · rw [hx']; exact hrange
        have hmed := npMedian_bounds (dequePush 10 st.hr_history hval)
          (dequePush_ne_nil 10 st.hr_history hval (by norm_num)) 40 200 hpushinv
        constructor
        · simp only [HeartRateMonitorM.process_frame, if_neg hlen, hhr]
          rcases hbr : (if 60 ≤ (dequePush (fps * 30) st.signal_buffer w).length then
              calculate_breathing_rate fps
                (dequePush (fps * 30) st.signal_buffer w).length bp
            else none) with _ | bval <;> simp [hbr] <;> exact hpushinv
        · intro out hout v hv
          simp only [HeartRateMonitorM.process_frame, if_neg hlen, hhr] at hout
          rcases hbr : (if 60 ≤ (dequePush (fps * 30) st.signal_buffer w).length then
              calculate_breathing_rate fps
                (dequePush (fps * 30) st.signal_buffer w).length bp
            else none) with _ | bval <;>
            rw [hbr] at hout <;>
            simp only [Option.some.injEq] at hout <;>
            rw [← hout] at hv <;>
            simp only [Option.some.injEq] at hv <;>
            rw [← hv] <;>
            exact hmed

theorem run_hr_inv (fps : Nat) (frames : List HRMFrame) :
    ∀ st : HRMState, InRangeHR st.hr_history →
      InRangeHR (HeartRateMonitorM.run fps st frames).1.hr_history ∧
      (∀ o ∈ (HeartRateMonitorM.run fps st frames).2, ∀ out : HRMOut, o = some out →
        ∀ v : ℚ, out.heart_rate = some v → 40 ≤ v ∧ v ≤ 200) := by
  induction frames with
  | nil =>
    intro st hinv
    exact ⟨hinv, by intro o ho; simp [HeartRateMonitorM.run] at ho⟩
  | cons f rest ih =>
    intro st hinv
    obtain ⟨hstep1, hstep2⟩ := process_frame_hr_inv fps st f hinv
    obtain ⟨hrest1, hrest2⟩ := ih (HeartRateMonitorM.process_frame fps st f).1 hstep1
    refine ⟨hrest1, ?_⟩
    intro o ho out hout v hv
    simp only [HeartRateMonitorM.run, List.mem_cons] at ho
    rcases ho with ho | ho
    · subst ho
      exact hstep2 out hout v hv
    · exact hrest2 o ho out hout v hv

/-- C4: whenever HeartRateMonitor.process_frame reports a non-none
heart_rate anywhere along a run from a fresh monitor, the value lies in
[40, 200] BPM, for every fps and every frame sequence — including
sequences whose in-band spectral peak corresponds to a BPM outside the
range: the per-frame candidate is range-checked before entering the
rolling history and the report is the median of history entries that all
passed the check. -/
theorem c4_heart_rate_in_range (fps : Nat) (frames : List HRMFrame)
    (o : Option HRMOut) (out : HRMOut) (v : ℚ)
    (ho : o ∈ (HeartRateMonitorM.run fps initHRM frames).2)
    (hout : o = some out) (hv : out.heart_rate = some v) :
    40 ≤ v ∧ v ≤ 200 :=
  (run_hr_inv fps frames initHRM (by intro x hx; simp [initHRM] at hx)).2
    o ho out hout v hv

set_option maxRecDepth 20000 in
/-- C4 witness: a 30-frame run at 30 fps whose spectral-peak oracle sits at
72 BPM; the 30th output reports heart rate 72, which the theorem brackets
into [40, 200]. -/
theorem c4_heart_rate_in_range_witness : (40 : ℚ) ≤ 72 ∧ (72 : ℚ) ≤ 200 :=
  c4_heart_rate_in_range 30 (List.replicate 30 ⟨some 1, some 72, none⟩)
    (some { heart_rate := some 72, breathing_rate := none })
    { heart_rate := some 72, breathing_rate := none } 72
    (List.mem_of_mem_getLast? rfl) rfl rfl
